import Mathlib

/-!
# Verification of the segmentation pipeline of `src/app.py`

Shallow embedding of the `/process_video` endpoint of `src/app.py`
(Flask video-shorts API).  Python floats are modelled as exact rationals
(`ℚ`); all the claims checked here are structural (comparisons, list
ordering, counting), not about floating-point rounding.

The external collaborators (MoviePy crop, ffmpeg encode) are modelled as
boolean oracles indexed by the loop index `i`:
  * `cropOk i`   — whether `clip.resize(height=1920).crop(...)` at line
    133-134 succeeds (otherwise the code falls back to a plain resize and
    appends `crop_fail_clip_i` to `debug_errors`, lines 135-139);
  * `encodeOk i` — whether `clip_resized.write_videofile(...)` at line
    149-160 succeeds (otherwise the code appends a message and skips the
    segment, lines 161-174).
The other MoviePy calls (`subclip`, `resize`) are treated as total, as the
spec does.
-/

namespace RenderApi

/-- Number of loop iterations: `range(min(max(num_shorts, 1), 5))`
(src/app.py line 111).  `num_shorts` is an `int` and may be negative. -/
def loopCount (num_shorts : ℤ) : ℕ := (min (max num_shorts 1) 5).toNat

/-- `segment_duration = duration / max(num_shorts, 1)` (line 113).
Note the divisor is clamped below at 1 only, *not* above at 5. -/
def segment_duration (duration : ℚ) (num_shorts : ℤ) : ℚ :=
  duration / ((max num_shorts 1 : ℤ) : ℚ)

/-- `offset = min(10, segment_duration * 0.2)` (line 116). -/
def offset (duration : ℚ) (num_shorts : ℤ) : ℚ :=
  min 10 (segment_duration duration num_shorts * (1 / 5))

/-- `start_time = i * segment_duration + offset` (line 117). -/
def start_time (duration : ℚ) (num_shorts : ℤ) (i : ℕ) : ℚ :=
  (i : ℚ) * segment_duration duration num_shorts + offset duration num_shorts

/-- `end_time = min(duration, start_time + 15)` (line 118). -/
def end_time (duration : ℚ) (num_shorts : ℤ) (i : ℕ) : ℚ :=
  min duration (start_time duration num_shorts i + 15)

/-- Length of the window at index `i` (`end_time - start_time`,
compared against 5 at line 121). -/
def winLen (duration : ℚ) (num_shorts : ℤ) (i : ℕ) : ℚ :=
  end_time duration num_shorts i - start_time duration num_shorts i

/-- A planned time window: one loop iteration that passed the
`end_time - start_time < 5` safety check at line 121 and therefore
proceeds to extraction. -/
structure SegmentWindow where
  index : ℕ
  start : ℚ
  stop : ℚ
  deriving DecidableEq, Repr

/-- The window computed at loop index `i` (lines 113-118). -/
def windowAt (duration : ℚ) (num_shorts : ℤ) (i : ℕ) : SegmentWindow :=
  ⟨i, start_time duration num_shorts i, end_time duration num_shorts i⟩

/-- One entry of the `debug_errors` list.  The constructors stand for the
three message formats appended by the code:
  * `tooShort i`   — `"Segment {i} trop court (...), arrêt"` (line 122);
  * `cropFail i`   — `"crop_fail_clip_{i}: ..."` (line 138);
  * `encodeFail i` — `"ffmpeg/write_videofile échec clip {i}: ..."`
    (line 162). -/
inductive DebugEntry where
  | tooShort (i : ℕ)
  | cropFail (i : ℕ)
  | encodeFail (i : ℕ)
  deriving DecidableEq, Repr

/-- The loop index a debug entry refers to. -/
def DebugEntry.index : DebugEntry → ℕ
  | .tooShort i => i
  | .cropFail i => i
  | .encodeFail i => i

/-- One element of the `shorts` list built at lines 180-186.  The
`file_base64` payload is produced by the external encoder and is not
modelled; the remaining fields are. -/
structure Short where
  type : String
  timestamp : ℚ
  dur : ℚ
  index : ℕ
  deriving DecidableEq, Repr

/-- The `shorts` entry appended for loop index `i` on a successful export
(lines 180-186): `type` is `"but"` for even `i` and `"dribble"` for odd
`i`, `timestamp = start_time`, `duration = end_time - start_time`. -/
def shortAt (duration : ℚ) (num_shorts : ℤ) (i : ℕ) : Short :=
  ⟨if i % 2 = 0 then "but" else "dribble",
   start_time duration num_shorts i,
   end_time duration num_shorts i - start_time duration num_shorts i,
   i⟩

/-- Observable outcome of the `for` loop at lines 111-203: the windows
that passed the safety check (in iteration order), the `shorts` list and
the `debug_errors` list. -/
structure LoopOut where
  windows : List SegmentWindow
  shorts : List Short
  debug_errors : List DebugEntry
  deriving DecidableEq, Repr

/-- The loop of lines 111-203, starting at index `i` with `fuel`
remaining iterations.  Per iteration: compute the window (lines 113-118);
if shorter than 5 s, append a `tooShort` entry and `break` (lines
121-125); otherwise attempt the crop (a failure appends `cropFail i` and
falls back to a resize, lines 131-139), then the export: on failure
append `encodeFail i` and `continue` (lines 161-174), on success append
the short (lines 180-186). -/
def loopFrom (duration : ℚ) (num_shorts : ℤ) (cropOk encodeOk : ℕ → Bool) :
    ℕ → ℕ → LoopOut
  | _, 0 => ⟨[], [], []⟩
  | i, fuel + 1 =>
    if winLen duration num_shorts i < 5 then
      ⟨[], [], [.tooShort i]⟩
    else
      let cropDiag : List DebugEntry := if cropOk i then [] else [.cropFail i]
      let rest := loopFrom duration num_shorts cropOk encodeOk (i + 1) fuel
      if encodeOk i then
        ⟨windowAt duration num_shorts i :: rest.windows,
         shortAt duration num_shorts i :: rest.shorts,
         cropDiag ++ rest.debug_errors⟩
      else
        ⟨windowAt duration num_shorts i :: rest.windows,
         rest.shorts,
         cropDiag ++ DebugEntry.encodeFail i :: rest.debug_errors⟩

/-- The whole loop of lines 111-203. -/
def runLoop (duration : ℚ) (num_shorts : ℤ) (cropOk encodeOk : ℕ → Bool) :
    LoopOut :=
  loopFrom duration num_shorts cropOk encodeOk 0 (loopCount num_shorts)

/-- The JSON response of `/process_video` after the video has been probed
(modelled from line 102 on):
  * `error` — an early `400` rejection (line 102-105), carrying the
    `error` message;
  * `failureResp` — the `400` of lines 210-218 (`success: false`), with
    `error`, `original_duration`, `shorts_created` and `debug_errors`;
  * `successResp` — the `200` of lines 221-227 (`success: true`), with
    `shorts`, `original_duration`, `shorts_created` and `debug_errors`. -/
inductive Response where
  | error (error : String)
  | failureResp (error : String) (original_duration : ℚ)
      (shorts_created : ℕ) (debug_errors : List DebugEntry)
  | successResp (shorts : List Short) (original_duration : ℚ)
      (shorts_created : ℕ) (debug_errors : List DebugEntry)
  deriving DecidableEq, Repr

/-- `process_video` from the point where the probed `duration` is known
(line 102): reject `duration < 30` (lines 102-105), otherwise run the
loop and aggregate (lines 210-227). -/
def process_video (duration : ℚ) (num_shorts : ℤ)
    (cropOk encodeOk : ℕ → Bool) : Response :=
  if duration < 30 then
    .error "Vidéo trop courte (min 30s)"
  else
    let out := runLoop duration num_shorts cropOk encodeOk
    if out.shorts.length = 0 then
      .failureResp "Aucun short généré" duration 0 out.debug_errors
    else
      .successResp out.shorts duration out.shorts.length out.debug_errors

/-! ## Characterization of the loop

`attemptedFrom` lists the loop indices whose window passes the safety
check (those reaching line 127); `brokeFrom` is the index at which the
`break` at line 125 fires, if any; `perWindowDiag` is the chronological
list of `debug_errors` entries one attempted window contributes. -/

/-- Indices of the iterations that pass the `< 5` safety check before
the loop ends (by `break` or by exhausting the range). -/
def attemptedFrom (duration : ℚ) (num_shorts : ℤ) : ℕ → ℕ → List ℕ
  | _, 0 => []
  | i, fuel + 1 =>
    if winLen duration num_shorts i < 5 then []
    else i :: attemptedFrom duration num_shorts (i + 1) fuel

/-- The index at which the `break` of line 125 fires, if any. -/
def brokeFrom (duration : ℚ) (num_shorts : ℤ) : ℕ → ℕ → Option ℕ
  | _, 0 => none
  | i, fuel + 1 =>
    if winLen duration num_shorts i < 5 then some i
    else brokeFrom duration num_shorts (i + 1) fuel

/-- `debug_errors` entries contributed by the attempted window `i`:
a `cropFail` entry when the crop fails, then an `encodeFail` entry when
the export fails. -/
def perWindowDiag (cropOk encodeOk : ℕ → Bool) (i : ℕ) : List DebugEntry :=
  (if cropOk i then [] else [.cropFail i]) ++
  (if encodeOk i then [] else [.encodeFail i])

/-! ## Temporary-file model

Lifecycle of the temporary artifacts of one request: the saved source
video (line 87-89) and, per attempted window, one video temp file and
one audio temp file (lines 142-146).  Deletions follow the `os.unlink`
calls (lines 99, 104, 167-168, 192, 207) and the `remove_temp=True`
flag of `write_videofile` (line 154), which removes the audio temp on a
successful export. -/

/-- A temporary file created while serving one request. -/
inductive TempFile where
  | videoFile
  | shortFile (i : ℕ)
  | audioFile (i : ℕ)
  deriving DecidableEq, Repr

/-- A filesystem event: creation or deletion of a temporary file. -/
inductive FsEvent where
  | create (f : TempFile)
  | delete (f : TempFile)
  deriving DecidableEq, Repr

/-- Temp-file events of one attempted window `i` (lines 142-194): the
video and audio temp files are created; on export failure both are
unlinked (lines 167-168); on success `remove_temp=True` removes the
audio temp and line 192 unlinks the video temp. -/
def clipEvents (encodeOk : ℕ → Bool) (i : ℕ) : List FsEvent :=
  [.create (.shortFile i), .create (.audioFile i)] ++
  (if encodeOk i then
    [.delete (.audioFile i), .delete (.shortFile i)]
  else
    [.delete (.shortFile i), .delete (.audioFile i)])

/-- Temp-file events of the `for` loop at lines 111-203, starting at
index `i` with `fuel` remaining iterations. -/
def loopEvents (duration : ℚ) (num_shorts : ℤ) (encodeOk : ℕ → Bool) :
    ℕ → ℕ → List FsEvent
  | _, 0 => []
  | i, fuel + 1 =>
    if winLen duration num_shorts i < 5 then []
    else clipEvents encodeOk i ++ loopEvents duration num_shorts encodeOk (i + 1) fuel

/-- Temp-file events of one whole request, from the save of the source
video at lines 87-89 on.  `loadOk` is whether `mp.VideoFileClip`
succeeds (on failure line 99 unlinks the video); `finalRaises` is
whether an exception is raised after the loop (for example in
`video.close()` at line 206 or while serializing the response) and
reaches the top-level handler at lines 229-231, which returns the 500
response without any unlink; otherwise line 207 unlinks the video. -/
def requestEvents (loadOk : Bool) (duration : ℚ) (num_shorts : ℤ)
    (encodeOk : ℕ → Bool) (finalRaises : Bool) : List FsEvent :=
  FsEvent.create .videoFile ::
  (if loadOk = false then [.delete .videoFile]
  else if duration < 30 then [.delete .videoFile]
  else
    loopEvents duration num_shorts encodeOk 0 (loopCount num_shorts) ++
      (if finalRaises then [] else [.delete .videoFile]))

/-- Remove a file from the list of live temporary files. -/
def removeFile : List TempFile → TempFile → List TempFile
  | [], _ => []
  | g :: l, f => if g = f then removeFile l f else g :: removeFile l f

/-- Apply one filesystem event to the list of live temporary files. -/
def applyEvent (live : List TempFile) : FsEvent → List TempFile
  | .create f => live ++ [f]
  | .delete f => removeFile live f

/-- Temporary files still alive after a list of events. -/
def leftover (events : List FsEvent) : List TempFile :=
  events.foldl applyEvent []

/-! ## Motion scorer

Modelled from the spec: the Motion Scorer of section 4.4 (the
`scoreMotion` contract) is code of this repository that is not present
under `src/`; only `src/app.py` (the segmentation endpoint) is.  The
model follows the words of section 4.4: maintain `previousGray`
(initially absent); for each frame compute the blurred grayscale,
compare it with the previous one by mean absolute per-pixel difference,
and emit a `HighlightPoint` when the score strictly exceeds the
threshold; always advance `previousGray` and `frameIndex`.  The
grayscale conversion followed by the 21-by-21 Gaussian blur is an
arbitrary deterministic per-frame preprocessing, abstracted as the
function argument `prep`. -/

/-- A highlight: timestamp in seconds and motion score. -/
structure HighlightPoint where
  timestamp : ℚ
  score : ℚ
  deriving DecidableEq, Repr

/-- Mean absolute per-pixel difference of two equally sized frames. -/
def meanAbsDiff (f g : List ℤ) : ℚ :=
  ((((f.zip g).map (fun p => |p.1 - p.2|)).sum : ℤ) : ℚ) / ((f.length : ℕ) : ℚ)

/-- Modelled from the spec (section 4.4): the scorer state machine.
`prevGray` is the previous blurred grayscale frame (absent before the
first frame); `frameIndex` advances on every frame. -/
def scoreMotionAux {α : Type} (prep : α → List ℤ) (frameRate threshold : ℚ) :
    Option (List ℤ) → ℕ → List α → List HighlightPoint
  | _, _, [] => []
  | prevGray, frameIndex, frame :: rest =>
    let cur := prep frame
    let fired : List HighlightPoint :=
      match prevGray with
      | none => []
      | some prev =>
        let score := meanAbsDiff prev cur
        if threshold < score then [⟨(frameIndex : ℚ) / frameRate, score⟩] else []
    fired ++ scoreMotionAux prep frameRate threshold (some cur) (frameIndex + 1) rest

/-- Modelled from the spec (section 4.4):
`scoreMotion(framesStream, frameRate, threshold) -> HighlightPoint list`. -/
def scoreMotion {α : Type} (prep : α → List ℤ) (frameRate threshold : ℚ)
    (frames : List α) : List HighlightPoint :=
  scoreMotionAux prep frameRate threshold none 0 frames

theorem loopFrom_windows (duration : ℚ) (num_shorts : ℤ)
    (cropOk encodeOk : ℕ → Bool) :
    ∀ (fuel i : ℕ),
      (loopFrom duration num_shorts cropOk encodeOk i fuel).windows =
        (attemptedFrom duration num_shorts i fuel).map (windowAt duration num_shorts)
  | 0, _ => rfl
  | fuel + 1, i => by
    simp only [loopFrom, attemptedFrom]
    split
    · rfl
    · split <;>
        simp [loopFrom_windows duration num_shorts cropOk encodeOk fuel (i + 1)]

theorem loopFrom_shorts (duration : ℚ) (num_shorts : ℤ)
    (cropOk encodeOk : ℕ → Bool) :
    ∀ (fuel i : ℕ),
      (loopFrom duration num_shorts cropOk encodeOk i fuel).shorts =
        ((attemptedFrom duration num_shorts i fuel).filter encodeOk).map
          (shortAt duration num_shorts)
  | 0, _ => rfl
  | fuel + 1, i => by
    simp only [loopFrom, attemptedFrom]
    split
    · rfl
    · rename_i hlen
      rcases h : encodeOk i with _ | _ <;>
        simp [h, loopFrom_shorts duration num_shorts cropOk encodeOk fuel (i + 1)]

theorem loopFrom_debug (duration : ℚ) (num_shorts : ℤ)
    (cropOk encodeOk : ℕ → Bool) :
    ∀ (fuel i : ℕ),
      (loopFrom duration num_shorts cropOk encodeOk i fuel).debug_errors =
        (attemptedFrom duration num_shorts i fuel).flatMap (perWindowDiag cropOk encodeOk)
          ++ ((brokeFrom duration num_shorts i fuel).map DebugEntry.tooShort).toList
  | 0, _ => rfl
  | fuel + 1, i => by
    simp only [loopFrom, attemptedFrom, brokeFrom]
    split
    · rfl
    · rcases h : encodeOk i with _ | _ <;>
        simp [h, perWindowDiag,
          loopFrom_debug duration num_shorts cropOk encodeOk fuel (i + 1)]

theorem mem_attemptedFrom (duration : ℚ) (num_shorts : ℤ) :
    ∀ (fuel i j : ℕ), j ∈ attemptedFrom duration num_shorts i fuel →
      i ≤ j ∧ j < i + fuel ∧
        ∀ k, i ≤ k → k ≤ j → ¬ winLen duration num_shorts k < 5
  | 0, i, j, hj => by simp [attemptedFrom] at hj
  | fuel + 1, i, j, hj => by
    simp only [attemptedFrom] at hj
    split at hj
    · simp at hj
    · rename_i hlen
      rcases List.mem_cons.mp hj with rfl | hj
      · exact ⟨le_refl _, by omega, fun k hik hkj => by
          have : k = j := le_antisymm hkj hik
          simpa [this] using hlen⟩
      · obtain ⟨h1, h2, h3⟩ := mem_attemptedFrom duration num_shorts fuel (i + 1) j hj
        refine ⟨by omega, by omega, fun k hik hkj => ?_⟩
        rcases Nat.eq_or_lt_of_le hik with rfl | hik'
        · exact hlen
        · exact h3 k hik' hkj

theorem attemptedFrom_pairwise (duration : ℚ) (num_shorts : ℤ) :
    ∀ (fuel i : ℕ), List.Pairwise (· < ·) (attemptedFrom duration num_shorts i fuel)
  | 0, _ => List.Pairwise.nil
  | fuel + 1, i => by
    simp only [attemptedFrom]
    split
    · exact List.Pairwise.nil
    · exact List.Pairwise.cons
        (fun j hj => (mem_attemptedFrom duration num_shorts fuel (i + 1) j hj).1)
        (attemptedFrom_pairwise duration num_shorts fuel (i + 1))

@[simp] theorem windowAt_index (duration : ℚ) (num_shorts : ℤ) (i : ℕ) :
    (windowAt duration num_shorts i).index = i := rfl

@[simp] theorem windowAt_start (duration : ℚ) (num_shorts : ℤ) (i : ℕ) :
    (windowAt duration num_shorts i).start = start_time duration num_shorts i := rfl

@[simp] theorem windowAt_stop (duration : ℚ) (num_shorts : ℤ) (i : ℕ) :
    (windowAt duration num_shorts i).stop = end_time duration num_shorts i := rfl

@[simp] theorem shortAt_index (duration : ℚ) (num_shorts : ℤ) (i : ℕ) :
    (shortAt duration num_shorts i).index = i := rfl

/-! ## Claims -/

/-- C1, counterexample: the claim says `segmentDuration` is `duration`
divided by `clamp(requestedCount, 1, 5)`, the same clamped count as the
number of windows attempted.  At `duration = 100`, `requestedCount = 10`
the code attempts `loopCount 10 = 5` windows but divides by
`max(10, 1) = 10` (line 113), giving `segment_duration = 10`, not
`100 / 5 = 20`. -/
theorem C1_counterexample :
    loopCount 10 = 5 ∧
    segment_duration 100 10 = 10 ∧
    (100 : ℚ) / ((loopCount 10 : ℕ) : ℚ) = 20 ∧
    segment_duration 100 10 ≠ (100 : ℚ) / ((loopCount 10 : ℕ) : ℚ) := by
  refine ⟨rfl, ?_, ?_, ?_⟩ <;>
    norm_num [segment_duration, show loopCount 10 = 5 from rfl]

/-- C1, amended: `segment_duration = duration / max(requestedCount, 1)`
(lower clamp only); the number of windows attempted is
`clamp(requestedCount, 1, 5)` and the two counts coincide exactly when
`requestedCount ≤ 5`; every window that the planner emits at index `i`
has `start = i * segment_duration + min(10, segment_duration * 0.2)`
and `end = min(duration, start + 15)`. -/
theorem C1_window_formulas (duration : ℚ) (num_shorts : ℤ)
    (cropOk encodeOk : ℕ → Bool) (w : SegmentWindow)
    (hw : w ∈ (runLoop duration num_shorts cropOk encodeOk).windows) :
    segment_duration duration num_shorts =
      duration / ((max num_shorts 1 : ℤ) : ℚ) ∧
    (num_shorts ≤ 5 →
      ((loopCount num_shorts : ℕ) : ℚ) = ((max num_shorts 1 : ℤ) : ℚ)) ∧
    w.start = (w.index : ℚ) * segment_duration duration num_shorts +
      min 10 (segment_duration duration num_shorts * (1 / 5)) ∧
    w.stop = min duration (w.start + 15) ∧
    w.index < loopCount num_shorts := by
  rw [runLoop, loopFrom_windows] at hw
  obtain ⟨j, hj, rfl⟩ := List.mem_map.mp hw
  obtain ⟨-, hlt, -⟩ := mem_attemptedFrom duration num_shorts _ _ j hj
  refine ⟨rfl, ?_, ?_, ?_, ?_⟩
  · intro hn
    have h2 : max num_shorts 1 ≤ 5 := max_le hn (by norm_num)
    have h0 : ((max num_shorts 1).toNat : ℤ) = max num_shorts 1 :=
      Int.toNat_of_nonneg (le_trans (by norm_num) (le_max_right _ _))
    rw [loopCount, min_eq_left h2]
    exact_mod_cast congrArg (fun z : ℤ => (z : ℚ)) h0
  · simp [start_time, offset]
  · simp [end_time]
  · simpa using hlt

/-- C2: every window the planner emits is at least 5 seconds long
(hence nonempty), and if the window at an index `i` is shorter than
5 seconds then planning stops entirely there: no window with index `i`
or later is ever emitted (lines 121-125 append a message and `break`). -/
theorem C2_early_termination (duration : ℚ) (num_shorts : ℤ)
    (cropOk encodeOk : ℕ → Bool) (w : SegmentWindow)
    (hw : w ∈ (runLoop duration num_shorts cropOk encodeOk).windows) :
    5 ≤ w.stop - w.start ∧ w.start < w.stop ∧
      ∀ i : ℕ, winLen duration num_shorts i < 5 → w.index < i := by
  rw [runLoop, loopFrom_windows] at hw
  obtain ⟨j, hj, rfl⟩ := List.mem_map.mp hw
  obtain ⟨-, -, h3⟩ := mem_attemptedFrom duration num_shorts _ _ j hj
  have hlen : ¬ winLen duration num_shorts j < 5 :=
    h3 j (Nat.zero_le j) (le_refl j)
  have h5 : 5 ≤ (windowAt duration num_shorts j).stop -
      (windowAt duration num_shorts j).start := by
    simpa [winLen] using not_lt.mp hlen
  refine ⟨h5, by linarith, ?_⟩
  intro i hi
  rcases Nat.lt_or_ge (windowAt duration num_shorts j).index i with h | h
  · exact h
  · exact absurd hi (h3 i (Nat.zero_le i) (by simpa using h))

/-- C2, witness: at `duration = 60`, `num_shorts = 3` the second emitted
window is `[24, 39]`, 15 seconds long. -/
theorem C2_early_termination_witness :
    (⟨1, 24, 39⟩ : SegmentWindow) ∈
      (runLoop 60 3 (fun _ => true) (fun _ => true)).windows ∧
    5 ≤ (⟨1, 24, 39⟩ : SegmentWindow).stop - (⟨1, 24, 39⟩ : SegmentWindow).start := by
  have hmem : (⟨1, 24, 39⟩ : SegmentWindow) ∈
      (runLoop 60 3 (fun _ => true) (fun _ => true)).windows := by
    norm_num [runLoop, show loopCount 3 = 3 from rfl, loopFrom, winLen, end_time,
      start_time, offset, segment_duration, windowAt, min_def]
  exact ⟨hmem,
    (C2_early_termination 60 3 (fun _ => true) (fun _ => true) ⟨1, 24, 39⟩ hmem).1⟩

/-- C1, witness for the amended claim: at `duration = 60`,
`num_shorts = 3` the first emitted window is `[4, 19]` and satisfies the
stated formulas. -/
theorem C1_window_formulas_witness :
    (⟨0, 4, 19⟩ : SegmentWindow) ∈
      (runLoop 60 3 (fun _ => true) (fun _ => true)).windows ∧
    (⟨0, 4, 19⟩ : SegmentWindow).stop =
      min 60 ((⟨0, 4, 19⟩ : SegmentWindow).start + 15) := by
  have hmem : (⟨0, 4, 19⟩ : SegmentWindow) ∈
      (runLoop 60 3 (fun _ => true) (fun _ => true)).windows := by
    norm_num [runLoop, show loopCount 3 = 3 from rfl, loopFrom, winLen, end_time,
      start_time, offset, segment_duration, windowAt, min_def]
  exact ⟨hmem,
    (C1_window_formulas 60 3 (fun _ => true) (fun _ => true) ⟨0, 4, 19⟩
      hmem).2.2.2.1⟩

/-- C3, counterexample: the claim says a crop fallback produces no
entry in the diagnostic log.  At `duration = 100`, `num_shorts = 1`,
with the crop failing and the encode succeeding, the segment is
extracted (it is not skipped) but line 138 has appended a
`crop_fail_clip_0` entry to `debug_errors`. -/
theorem C3_counterexample :
    DebugEntry.cropFail 0 ∈
      (runLoop 100 1 (fun _ => false) (fun _ => true)).debug_errors ∧
    (runLoop 100 1 (fun _ => false) (fun _ => true)).shorts =
      [⟨"but", 10, 15, 0⟩] := by
  norm_num [runLoop, show loopCount 1 = 1 from rfl, loopFrom, winLen, end_time,
    start_time, offset, segment_duration, shortAt, min_def]

/-- C3, amended: an infeasible crop falls back to resize-only and is not
a per-segment failure — the segment is still extracted and can succeed —
but the fallback does append a `crop_fail_clip_i` entry to the
diagnostic log (line 138); an encode failure both logs an entry and
skips the segment. -/
theorem C3_crop_fallback_logged (duration : ℚ) (num_shorts : ℤ)
    (cropOk encodeOk : ℕ → Bool) (i : ℕ)
    (hi : i ∈ attemptedFrom duration num_shorts 0 (loopCount num_shorts)) :
    (cropOk i = false →
      DebugEntry.cropFail i ∈
        (runLoop duration num_shorts cropOk encodeOk).debug_errors) ∧
    (encodeOk i = true →
      shortAt duration num_shorts i ∈
        (runLoop duration num_shorts cropOk encodeOk).shorts) ∧
    (encodeOk i = false →
      DebugEntry.encodeFail i ∈
        (runLoop duration num_shorts cropOk encodeOk).debug_errors ∧
      shortAt duration num_shorts i ∉
        (runLoop duration num_shorts cropOk encodeOk).shorts) := by
  simp only [runLoop, loopFrom_debug, loopFrom_shorts]
  refine ⟨?_, ?_, ?_⟩
  · intro hc
    exact List.mem_append_left _
      (List.mem_flatMap.mpr ⟨i, hi, by simp [perWindowDiag, hc]⟩)
  · intro he
    exact List.mem_map.mpr ⟨i, List.mem_filter.mpr ⟨hi, he⟩, rfl⟩
  · intro he
    refine ⟨List.mem_append_left _ (List.mem_flatMap.mpr ⟨i, hi, ?_⟩), ?_⟩
    · rcases hc : cropOk i with _ | _ <;> simp [perWindowDiag, hc, he]
    · intro hmem
      obtain ⟨j, hj, hji⟩ := List.mem_map.mp hmem
      have hjeq : j = i := by simpa using congrArg Short.index hji
      subst hjeq
      have hjt := (List.mem_filter.mp hj).2
      rw [he] at hjt
      exact Bool.false_ne_true hjt

/-- C3, witness for the amended claim: at `duration = 40`,
`num_shorts = 2`, window 0 is attempted, and a crop failure there puts a
`cropFail 0` entry in `debug_errors`. -/
theorem C3_crop_fallback_logged_witness :
    0 ∈ attemptedFrom 40 2 0 (loopCount 2) ∧
    DebugEntry.cropFail 0 ∈
      (runLoop 40 2 (fun _ => false) (fun _ => true)).debug_errors := by
  have h0 : 0 ∈ attemptedFrom 40 2 0 (loopCount 2) := by
    norm_num [attemptedFrom, show loopCount 2 = 2 from rfl, winLen, end_time,
      start_time, offset, segment_duration, min_def]
  exact ⟨h0,
    (C3_crop_fallback_logged 40 2 (fun _ => false) (fun _ => true) 0 h0).1 rfl⟩

/-- C4: the `shorts` list preserves planner emission order — its
entries are strictly increasing in window index and are exactly the
attempted windows whose encode succeeded, in order.  In the concrete
5-window run at `duration = 100`, `num_shorts = 5` where the encode
fails for windows 1 and 3, the successes are exactly windows 0, 2, 4 in
that order and `debug_errors` has exactly the two entries for indices 1
and 3. -/
theorem C4_successes_order (duration : ℚ) (num_shorts : ℤ)
    (cropOk encodeOk : ℕ → Bool) :
    List.Pairwise (fun a b : Short => a.index < b.index)
      (runLoop duration num_shorts cropOk encodeOk).shorts ∧
    (runLoop duration num_shorts cropOk encodeOk).shorts.map Short.index =
      ((runLoop duration num_shorts cropOk encodeOk).windows.map
        SegmentWindow.index).filter encodeOk ∧
    (runLoop 100 5 (fun _ => true) (fun i => i % 2 == 0)).shorts =
      [shortAt 100 5 0, shortAt 100 5 2, shortAt 100 5 4] ∧
    (runLoop 100 5 (fun _ => true) (fun i => i % 2 == 0)).windows.length = 5 ∧
    (runLoop 100 5 (fun _ => true) (fun i => i % 2 == 0)).debug_errors =
      [DebugEntry.encodeFail 1, DebugEntry.encodeFail 3] := by
  refine ⟨?_, ?_, ?_, ?_, ?_⟩
  · rw [runLoop, loopFrom_shorts, List.pairwise_map]
    exact List.Pairwise.imp (fun h => by simpa using h)
      ((attemptedFrom_pairwise duration num_shorts _ _).filter encodeOk)
  · rw [runLoop, loopFrom_shorts, loopFrom_windows, List.map_map, List.map_map]
    have h1 : (Short.index ∘ shortAt duration num_shorts) = fun j => j := by
      funext j; simp [Function.comp]
    have h2 : (SegmentWindow.index ∘ windowAt duration num_shorts) = fun j => j := by
      funext j; simp [Function.comp]
    rw [h1, h2]
    simp
  · norm_num [runLoop, show loopCount 5 = 5 from rfl, loopFrom, winLen, end_time,
      start_time, offset, segment_duration, min_def]
  · norm_num [runLoop, show loopCount 5 = 5 from rfl, loopFrom, winLen, end_time,
      start_time, offset, segment_duration, min_def]
  · norm_num [runLoop, show loopCount 5 = 5 from rfl, loopFrom, winLen, end_time,
      start_time, offset, segment_duration, min_def]

theorem filter_encode_nil (encodeOk : ℕ → Bool) (l : List ℕ)
    (h : ∀ i ∈ l, encodeOk i = false) : l.filter encodeOk = [] :=
  List.filter_eq_nil_iff.mpr (fun a ha => by simp [h a ha])

theorem perWindowDiag_length_pos (cropOk encodeOk : ℕ → Bool) (i : ℕ)
    (he : encodeOk i = false) : 1 ≤ (perWindowDiag cropOk encodeOk i).length := by
  rcases hc : cropOk i with _ | _ <;> simp [perWindowDiag, hc, he]

theorem perWindowDiag_length_one (cropOk encodeOk : ℕ → Bool) (i : ℕ)
    (he : encodeOk i = false) (hc : cropOk i = true) :
    (perWindowDiag cropOk encodeOk i).length = 1 := by
  simp [perWindowDiag, hc, he]

theorem length_le_flatMap_perWindowDiag (cropOk encodeOk : ℕ → Bool) :
    ∀ (l : List ℕ), (∀ i ∈ l, encodeOk i = false) →
      l.length ≤ (l.flatMap (perWindowDiag cropOk encodeOk)).length
  | [], _ => le_refl 0
  | i :: l, h => by
    simp only [List.flatMap_cons, List.length_append, List.length_cons]
    have h1 := perWindowDiag_length_pos cropOk encodeOk i (h i (List.mem_cons_self i l))
    have h2 := length_le_flatMap_perWindowDiag cropOk encodeOk l
      (fun j hj => h j (List.mem_cons_of_mem i hj))
    omega

theorem length_flatMap_perWindowDiag_eq (cropOk encodeOk : ℕ → Bool) :
    ∀ (l : List ℕ), (∀ i ∈ l, encodeOk i = false) → (∀ i ∈ l, cropOk i = true) →
      (l.flatMap (perWindowDiag cropOk encodeOk)).length = l.length
  | [], _, _ => rfl
  | i :: l, h, hc => by
    simp only [List.flatMap_cons, List.length_append, List.length_cons]
    rw [perWindowDiag_length_one cropOk encodeOk i (h i (List.mem_cons_self i l))
        (hc i (List.mem_cons_self i l)),
      length_flatMap_perWindowDiag_eq cropOk encodeOk l
        (fun j hj => h j (List.mem_cons_of_mem i hj))
        (fun j hj => hc j (List.mem_cons_of_mem i hj))]
    omega

/-- C5, counterexample: the claim says that when every attempted window
fails extraction, the diagnostics length equals the number of windows
attempted.  At `duration = 100`, `num_shorts = 1` with the crop and the
encode both failing, one window is attempted but `debug_errors` has two
entries (the crop fallback of line 138 also logs), so the lengths
differ; the failure response itself is as claimed. -/
theorem C5_counterexample :
    (runLoop 100 1 (fun _ => false) (fun _ => false)).windows.length = 1 ∧
    process_video 100 1 (fun _ => false) (fun _ => false) =
      .failureResp "Aucun short généré" 100 0
        [DebugEntry.cropFail 0, DebugEntry.encodeFail 0] ∧
    (runLoop 100 1 (fun _ => false) (fun _ => false)).debug_errors.length ≠
      (runLoop 100 1 (fun _ => false) (fun _ => false)).windows.length := by
  refine ⟨?_, ?_, ?_⟩ <;>
    norm_num [process_video, runLoop, show loopCount 1 = 1 from rfl, loopFrom,
      winLen, end_time, start_time, offset, segment_duration, min_def]

/-- C5, amended: when every attempted window fails extraction (and the
probed duration passed the 30-second check), the result is the overall
failure response with `success=false`, `shorts_created = 0`, the probed
duration, and the accumulated `debug_errors`; the diagnostics list has
at least one entry per attempted window, and its length equals the
number of windows attempted exactly when no crop fallback occurred and
planning did not terminate early (each of which adds an extra entry). -/
theorem C5_all_fail_overall_failure (duration : ℚ) (num_shorts : ℤ)
    (cropOk encodeOk : ℕ → Bool) (hd : ¬ duration < 30)
    (hfail : ∀ i ∈ attemptedFrom duration num_shorts 0 (loopCount num_shorts),
      encodeOk i = false) :
    process_video duration num_shorts cropOk encodeOk =
      .failureResp "Aucun short généré" duration 0
        (runLoop duration num_shorts cropOk encodeOk).debug_errors ∧
    (runLoop duration num_shorts cropOk encodeOk).windows.length ≤
      (runLoop duration num_shorts cropOk encodeOk).debug_errors.length ∧
    ((∀ i ∈ attemptedFrom duration num_shorts 0 (loopCount num_shorts),
        cropOk i = true) →
      brokeFrom duration num_shorts 0 (loopCount num_shorts) = none →
      (runLoop duration num_shorts cropOk encodeOk).debug_errors.length =
        (runLoop duration num_shorts cropOk encodeOk).windows.length) := by
  have hshorts : (runLoop duration num_shorts cropOk encodeOk).shorts = [] := by
    rw [runLoop, loopFrom_shorts, filter_encode_nil encodeOk _ hfail, List.map_nil]
  refine ⟨?_, ?_, ?_⟩
  · unfold process_video
    rw [if_neg hd]
    simp [runLoop] at hshorts ⊢
    simp [hshorts]
  · rw [runLoop, loopFrom_windows, loopFrom_debug]
    have h1 := length_le_flatMap_perWindowDiag cropOk encodeOk _ hfail
    simp only [List.length_append, List.length_map]
    omega
  · intro hcrop hnb
    rw [runLoop, loopFrom_windows, loopFrom_debug, hnb]
    simp only [Option.map_none', Option.toList_none, List.append_nil,
      List.length_map]
    exact length_flatMap_perWindowDiag_eq cropOk encodeOk _ hfail hcrop

/-- C5, witness for the amended claim: at `duration = 100`,
`num_shorts = 1`, crop fine, encode always failing, the response is the
overall failure carrying the duration and one diagnostic entry for the
one attempted window. -/
theorem C5_all_fail_overall_failure_witness :
    ¬ (100 : ℚ) < 30 ∧
    process_video 100 1 (fun _ => true) (fun _ => false) =
      .failureResp "Aucun short généré" 100 0 [DebugEntry.encodeFail 0] := by
  have hd : ¬ (100 : ℚ) < 30 := by norm_num
  have h := (C5_all_fail_overall_failure 100 1 (fun _ => true) (fun _ => false)
    hd (fun _ _ => rfl)).1
  refine ⟨hd, h.trans ?_⟩
  norm_num [runLoop, show loopCount 1 = 1 from rfl, loopFrom, winLen, end_time,
    start_time, offset, segment_duration, min_def]

/-- C6: a probed duration below 30 seconds is rejected before planning
begins (lines 102-105): the response is the failure carrying the
originating message `"Vidéo trop courte (min 30s)"`, and it does not
depend on the requested count or on any extraction outcome — no window
is planned and no extraction is attempted. -/
theorem C6_short_duration_rejected (duration : ℚ) (num_shorts : ℤ)
    (cropOk encodeOk : ℕ → Bool) (hd : duration < 30) :
    process_video duration num_shorts cropOk encodeOk =
      .error "Vidéo trop courte (min 30s)" ∧
    ∀ (n' : ℤ) (cropOk' encodeOk' : ℕ → Bool),
      process_video duration num_shorts cropOk encodeOk =
        process_video duration n' cropOk' encodeOk' := by
  have h : ∀ (n' : ℤ) (cO eO : ℕ → Bool),
      process_video duration n' cO eO = .error "Vidéo trop courte (min 30s)" := by
    intro n' cO eO
    unfold process_video
    rw [if_pos hd]
  exact ⟨h _ _ _, fun n' cO eO => (h _ _ _).trans (h _ _ _).symm⟩

/-- C6, witness: a 10-second video is rejected with the message. -/
theorem C6_short_duration_rejected_witness :
    (10 : ℚ) < 30 ∧
    process_video 10 3 (fun _ => true) (fun _ => true) =
      .error "Vidéo trop courte (min 30s)" :=
  ⟨by norm_num,
   (C6_short_duration_rejected 10 3 (fun _ => true) (fun _ => true)
      (by norm_num)).1⟩

/-- C7: the label of every emitted segment is a pure function of index
parity — `"but"` (the label the spec calls "type A") for even index,
`"dribble"` (the label the spec calls "type B") for odd index, lines
180-186 — and the remaining fields of the entry (`timestamp`,
`duration`) are the planner values for that index, unaffected by the
label. -/
theorem C7_label_parity (duration : ℚ) (num_shorts : ℤ)
    (cropOk encodeOk : ℕ → Bool) (s : Short)
    (hs : s ∈ (runLoop duration num_shorts cropOk encodeOk).shorts) :
    s.type = (if s.index % 2 = 0 then "but" else "dribble") ∧
    s.timestamp = start_time duration num_shorts s.index ∧
    s.dur = end_time duration num_shorts s.index -
      start_time duration num_shorts s.index := by
  rw [runLoop, loopFrom_shorts] at hs
  obtain ⟨j, hj, rfl⟩ := List.mem_map.mp hs
  simp [shortAt]

/-- C7, witness: the emitted segment of index 1 at `duration = 60`,
`num_shorts = 3` carries the odd-parity label. -/
theorem C7_label_parity_witness :
    (⟨"dribble", 24, 15, 1⟩ : Short) ∈
      (runLoop 60 3 (fun _ => true) (fun _ => true)).shorts ∧
    (⟨"dribble", 24, 15, 1⟩ : Short).type =
      (if (⟨"dribble", 24, 15, 1⟩ : Short).index % 2 = 0 then "but"
       else "dribble") := by
  have hmem : (⟨"dribble", 24, 15, 1⟩ : Short) ∈
      (runLoop 60 3 (fun _ => true) (fun _ => true)).shorts := by
    norm_num [runLoop, show loopCount 3 = 3 from rfl, loopFrom, winLen, end_time,
      start_time, offset, segment_duration, shortAt, min_def]
  exact ⟨hmem, (C7_label_parity 60 3 (fun _ => true) (fun _ => true) _ hmem).1⟩

theorem tooShort_not_mem_perWindowDiag (cropOk encodeOk : ℕ → Bool) (i j : ℕ) :
    DebugEntry.tooShort i ∉ perWindowDiag cropOk encodeOk j := by
  rcases hc : cropOk j with _ | _ <;> rcases he : encodeOk j with _ | _ <;>
    simp [perWindowDiag, hc, he]

theorem tooShort_not_mem_flatMap (cropOk encodeOk : ℕ → Bool) (i : ℕ)
    (l : List ℕ) :
    DebugEntry.tooShort i ∉ l.flatMap (perWindowDiag cropOk encodeOk) := by
  intro h
  obtain ⟨j, _, hj⟩ := List.mem_flatMap.mp h
  exact tooShort_not_mem_perWindowDiag cropOk encodeOk i j hj

/-- C10: when planning terminates early at index `i` (the window there
is shorter than 5 seconds), that event appends exactly one `tooShort i`
entry to `debug_errors`, as the final entry, before stopping (lines
121-125); consequently — concrete run `duration = 30`, `num_shorts = 5`
with every extraction succeeding — the response can be a success whose
diagnostics list is non-empty even though no extraction failed. -/
theorem C10_early_stop_logs_diag (duration : ℚ) (num_shorts : ℤ)
    (cropOk encodeOk : ℕ → Bool) (i : ℕ)
    (hb : brokeFrom duration num_shorts 0 (loopCount num_shorts) = some i) :
    (runLoop duration num_shorts cropOk encodeOk).debug_errors.getLast? =
      some (DebugEntry.tooShort i) ∧
    (runLoop duration num_shorts cropOk encodeOk).debug_errors.count
      (DebugEntry.tooShort i) = 1 ∧
    process_video 30 5 (fun _ => true) (fun _ => true) =
      .successResp
        [shortAt 30 5 0, shortAt 30 5 1, shortAt 30 5 2, shortAt 30 5 3]
        30 4 [DebugEntry.tooShort 4] := by
  refine ⟨?_, ?_, ?_⟩
  · rw [runLoop, loopFrom_debug, hb]
    simp
  · rw [runLoop, loopFrom_debug, hb]
    simp only [Option.map_some', Option.toList_some]
    rw [List.count_append]
    rw [List.count_eq_zero.mpr
      (tooShort_not_mem_flatMap cropOk encodeOk i _)]
    simp
  · norm_num [process_video, runLoop, show loopCount 5 = 5 from rfl, loopFrom,
      winLen, end_time, start_time, offset, segment_duration, min_def]

/-- C10, witness: at `duration = 30`, `num_shorts = 5` the loop breaks
at index 4 and the `tooShort 4` entry closes the diagnostics list. -/
theorem C10_early_stop_logs_diag_witness :
    brokeFrom 30 5 0 (loopCount 5) = some 4 ∧
    (runLoop 30 5 (fun _ => true) (fun _ => true)).debug_errors.getLast? =
      some (DebugEntry.tooShort 4) := by
  have hb : brokeFrom 30 5 0 (loopCount 5) = some 4 := by
    norm_num [brokeFrom, show loopCount 5 = 5 from rfl, winLen, end_time,
      start_time, offset, segment_duration, min_def]
  exact ⟨hb,
    (C10_early_stop_logs_diag 30 5 (fun _ => true) (fun _ => true) 4 hb).1⟩

/-- C8: the claim says every temporary artifact is deleted on every
exit path, including the top-level exception path.  On the modelled
paths without a late exception (probe failure, too-short rejection,
normal completion, per-segment encode failure) nothing is leaked, but
when an exception is raised after the loop (for example in
`video.close()` at line 206) the handler at lines 229-231 returns
without unlinking the saved source video, which therefore outlives the
request. -/
theorem C8_video_leak_on_exception :
    leftover (requestEvents true 60 3 (fun _ => true) true) =
      [TempFile.videoFile] ∧
    leftover (requestEvents true 60 3 (fun _ => true) false) = [] ∧
    leftover (requestEvents true 60 3 (fun _ => false) false) = [] ∧
    leftover (requestEvents false 60 3 (fun _ => true) true) = [] ∧
    leftover (requestEvents true 10 3 (fun _ => true) false) = [] := by
  refine ⟨?_, ?_, ?_, ?_, ?_⟩ <;>
    norm_num [leftover, requestEvents, loopEvents, clipEvents, applyEvent,
      removeFile, show loopCount 3 = 3 from rfl, winLen, end_time, start_time,
      offset, segment_duration, min_def]
  decide

theorem meanAbsDiff_self (f : List ℤ) : meanAbsDiff f f = 0 := by
  have h : ((f.zip f).map (fun p => |p.1 - p.2|)).sum = 0 := by
    induction f with
    | nil => rfl
    | cons a l ih => simp [ih]
  simp [meanAbsDiff, h]

/-- C9: for the motion scorer (modelled from spec section 4.4, with the
grayscale-and-blur preprocessing abstracted as any deterministic
per-frame function `prep`), a two-frame sequence whose second frame is
pixel-for-pixel identical to the first yields a difference score of 0
for that pair and emits no `HighlightPoint`, for every threshold
strictly greater than 0. -/
theorem C9_identical_frames_no_highlight {α : Type} (prep : α → List ℤ)
    (frameRate threshold : ℚ) (f : α) (ht : 0 < threshold) :
    meanAbsDiff (prep f) (prep f) = 0 ∧
    scoreMotion prep frameRate threshold [f, f] = [] := by
  refine ⟨meanAbsDiff_self _, ?_⟩
  rw [scoreMotion]
  simp [scoreMotionAux, meanAbsDiff_self, lt_asymm ht]

/-- C9, witness: two identical three-pixel frames, threshold 50. -/
theorem C9_identical_frames_no_highlight_witness :
    (0 : ℚ) < 50 ∧
    scoreMotion (fun l : List ℤ => l) 30 50 [[1, 2, 3], [1, 2, 3]] = [] :=
  ⟨by norm_num,
   (C9_identical_frames_no_highlight (fun l : List ℤ => l) 30 50 [1, 2, 3]
      (by norm_num)).2⟩

end RenderApi
